import Mathlib

/-
Verification development for the Storyline icon-generation script
(scripts/blender_storyline_icons.py).

The script runs inside a 3D host application and drives its scene graph
through imperative host calls.  The embedding below models the host scene
state explicitly (objects, materials, world shading nodes, render settings,
files written by the renderer, console output) and translates every script
function into a state transformer in a state-plus-error monad `M`.  The
error path models a failing host call: every host interaction goes through
`op`, which consults a failure oracle (`fuel`) stored in the state; when the
oracle says the call raises, the computation stops with the state reached so
far.  Running with `fuel = none` (no call ever fails) gives the ordinary
semantics, extracted by `runP` and `runV`.

Notes on modelling granularity, all irrelevant to the observables used in
the theorems below:
* scalar quantities are exact rationals; the single non-rational value in
  the script, math.radians(180), is represented exactly by the type `RVal`
  of numbers of the form q + p * pi;
* host-assigned default names of freshly created objects (Cylinder, Cube,
  Icosphere, Cone, Sun, Area, Camera, Light) are modelled without the
  numeric dedup suffixes the host would add, since every object that could
  collide is renamed immediately after creation;
* a material slot on a mesh stores a snapshot of the assigned material;
  the script never mutates a material after assigning it, so snapshots and
  references agree;
* shader nodes list only the input sockets the script reads or writes;
  enabling use_nodes does not instantiate the host default node pair, which
  the script clears immediately anyway;
* the edit-mode component-selection calls in the shield builder are logged
  in dedicated state fields; the per-vertex selection they manipulate is
  outside the observables of this development.
-/

namespace Storyline

/-- Exact scalar values of the form q + p * pi.  Every literal in the script
is rational; only math.radians(180) contributes a pi part. -/
structure RVal where
  q : Rat
  p : Rat
deriving DecidableEq, Repr

instance (n : Nat) : OfNat RVal n := ⟨⟨(n : Rat), 0⟩⟩

instance : OfScientific RVal := ⟨fun m e b => ⟨OfScientific.ofScientific m e b, 0⟩⟩

/-- math.radians: degrees to radians, exactly deg * pi / 180. -/
def math_radians (deg : Rat) : RVal := ⟨0, deg / 180⟩

/-- A triple of coordinates. -/
structure V3 (α : Type) where
  x : α
  y : α
  z : α
deriving DecidableEq, Repr

/-- An RGBA color. -/
structure Color where
  r : Rat
  g : Rat
  b : Rat
  a : Rat
deriving DecidableEq, Repr

/-- The COLORS dictionary of Storyline brand colors. -/
def COLORS : List (String × Color) :=
  [("soft_plum", ⟨0.533, 0.329, 0.816, 1.0⟩),
   ("warm_ochre", ⟨0.894, 0.702, 0.388, 1.0⟩),
   ("gentle_sage", ⟨0.659, 0.753, 0.565, 1.0⟩),
   ("ink_black", ⟨0.106, 0.110, 0.118, 1.0⟩),
   ("soft_white", ⟨0.98, 0.98, 0.98, 1.0⟩)]

/-- Lookup in the COLORS dictionary (every key used by the script is present). -/
def colorOf (key : String) : Color :=
  ((COLORS.find? (fun kv => kv.1 == key)).getD ("", ⟨0, 0, 0, 0⟩)).2

/-- The rgb part of a color, as produced by the python slice color[:3]. -/
def Color.rgb (c : Color) : V3 Rat := ⟨c.r, c.g, c.b⟩

/-- A value stored in a shader-node input socket. -/
inductive SockVal where
  | col (c : Color)
  | num (v : Rat)
deriving DecidableEq, Repr

/-- A shader node: its host type name and its input sockets.  Only the
sockets the script touches are listed. -/
structure ShaderNodeV where
  ntype : String
  inputs : List (String × SockVal)
deriving DecidableEq, Repr

/-- A node link, identifying nodes by their index in the node list. -/
structure Link where
  fromNode : Nat
  fromSock : String
  toNode : Nat
  toSock : String
deriving DecidableEq, Repr

/-- Default input sockets of freshly created nodes (only the sockets the
script later assigns; their initial values are never observable because the
script overwrites all of them). -/
def defaultInputs (t : String) : List (String × SockVal) :=
  if t == "ShaderNodeBsdfPrincipled" then
    [("Base Color", .col ⟨0.8, 0.8, 0.8, 1.0⟩), ("Metallic", .num 0),
     ("Roughness", .num 0.5), ("Emission Strength", .num 0)]
  else if t == "ShaderNodeBackground" then
    [("Color", .col ⟨0.05, 0.05, 0.05, 1.0⟩), ("Strength", .num 1)]
  else []

/-- nodes.new: a fresh node of the given host type. -/
def newNode (t : String) : ShaderNodeV := ⟨t, defaultInputs t⟩

/-- A node tree: nodes plus links between them. -/
structure NodeTree where
  nodes : List ShaderNodeV
  links : List Link
deriving DecidableEq, Repr

/-- Replace the element at the given index, if any. -/
def listModify {α : Type} (f : α → α) : Nat → List α → List α
  | _, [] => []
  | 0, a :: rest => f a :: rest
  | n + 1, a :: rest => a :: listModify f n rest

/-- Replace the last element of a list, if any. -/
def updateLast {α : Type} (f : α → α) : List α → List α
  | [] => []
  | [a] => [f a]
  | a :: b :: rest => a :: updateLast f (b :: rest)

/-- Assign default_value of one input socket of one node. -/
def setNodeInput (node : Nat) (sock : String) (v : SockVal) (tr : NodeTree) : NodeTree :=
  { tr with
    nodes := listModify
               (fun nd => { nd with inputs := nd.inputs.map (fun pv => if pv.1 == sock then (pv.1, v) else pv) })
               node tr.nodes }

/-- A material datablock. -/
structure Material where
  name : String
  use_nodes : Bool
  node_tree : NodeTree
deriving DecidableEq, Repr

/-- The empty material used as a default for total lookups. -/
def emptyMaterial : Material := ⟨"", false, ⟨[], []⟩⟩

/-- The world datablock of the scene. -/
structure WorldT where
  use_nodes : Bool
  node_tree : NodeTree
deriving DecidableEq, Repr

/-- A primitive mesh shape together with the construction parameters the
script passes. -/
inductive Prim where
  | cylinder (radius depth : Rat)
  | cube (size : Rat)
  | icoSphere (radius : Rat)
  | cone (radius1 depth : Rat)
deriving DecidableEq, Repr

/-- A mesh modifier. -/
structure Modifier where
  name : String
  mtype : String
  levels : Nat
deriving DecidableEq, Repr

/-- The datablock attached to a scene object. -/
inductive ObjData where
  | mesh (prim : Prim) (materials : List Material) (modifiers : List Modifier) (smooth : Bool)
  | light (ltype : String) (energy : Rat) (color : V3 Rat)
  | camera
deriving DecidableEq, Repr

/-- A scene object. -/
structure Object where
  name : String
  location : V3 Rat
  rotation_euler : V3 RVal
  scale : V3 Rat
  data : ObjData
  selected : Bool
deriving DecidableEq, Repr

/-- The render settings of the scene. -/
structure RenderSettings where
  resolution_x : Nat
  resolution_y : Nat
  film_transparent : Bool
  filepath : String
deriving DecidableEq, Repr

/-- One image file written by the renderer: the output path and the
settings in force when the render was triggered. -/
structure RenderedFile where
  filepath : String
  res_x : Nat
  res_y : Nat
  transparent : Bool
deriving DecidableEq, Repr

/-- The host state manipulated by the script.  `fuel` is the failure
oracle: `none` means no host call ever raises; `some k` means the k-th next
host call raises. -/
structure BState where
  objects : List Object
  active : Option Nat
  scene_camera : Option Nat
  world : WorldT
  materials : List Material
  render : RenderSettings
  rendered : List RenderedFile
  printed : List String
  mode : String
  mesh_select_kind : String
  mesh_select_action : String
  fuel : Option Nat
deriving DecidableEq, Repr

/-- The script monad: state plus failure, where a failure carries the state
reached when the failing host call raised. -/
def M (α : Type) : Type := BState → Except BState (α × BState)

/-- Sequencing in `M`: a failure of the first computation propagates, the
second never runs. -/
def mBind {α β : Type} (f : M α) (g : α → M β) : M β := fun s =>
  match f s with
  | Except.error e => Except.error e
  | Except.ok (a, t) => g a t

/-- The pure computation in `M`. -/
def mPure {α : Type} (a : α) : M α := fun s => Except.ok (a, s)

instance : Monad M where
  pure := mPure
  bind := mBind

/-- A host call with the given effect on the host state.  When the failure
oracle reaches zero the call raises: the computation stops and the state
reached so far is carried by the error. -/
def op (f : BState → BState) : M Unit := fun s =>
  match s.fuel with
  | none => Except.ok ((), f s)
  | some 0 => Except.error s
  | some (k + 1) => Except.ok ((), f { s with fuel := some k })

/-- Reading a host attribute (attribute reads do not raise). -/
def readS {α : Type} (f : BState → α) : M α := fun s => Except.ok (f s, s)

/-- python print: writes to the console, not a host scene call. -/
def printMsg (m : String) : M Unit := fun s =>
  Except.ok ((), { s with printed := s.printed ++ [m] })

/-- Mark an object deselected (primitive-add operators deselect everything
else). -/
def deselect (o : Object) : Object := { o with selected := false }

/-- Shared effect of all add operators: deselect everything, append the new
object selected, make it active. -/
def addObject (o : Object) (s : BState) : BState :=
  { s with
    objects := s.objects.map deselect ++ [o],
    active := some s.objects.length }

/-- bpy.ops.object.select_all(action=SELECT). -/
def ops_select_all_select : M Unit :=
  op (fun s => { s with objects := s.objects.map (fun o => { o with selected := true }) })

/-- bpy.ops.object.delete(use_global=False): removes the selected objects. -/
def ops_delete_selected : M Unit :=
  op (fun s => { s with objects := s.objects.filter (fun o => !o.selected), active := none })

/-- bpy.ops.mesh.primitive_cylinder_add. -/
def primitive_cylinder_add (radius depth : Rat) (location : V3 Rat) : M Unit :=
  op (addObject ⟨"Cylinder", location, ⟨0, 0, 0⟩, ⟨1, 1, 1⟩, .mesh (.cylinder radius depth) [] [] false, true⟩)

/-- bpy.ops.mesh.primitive_cube_add. -/
def primitive_cube_add (size : Rat) (location : V3 Rat) : M Unit :=
  op (addObject ⟨"Cube", location, ⟨0, 0, 0⟩, ⟨1, 1, 1⟩, .mesh (.cube size) [] [] false, true⟩)

/-- bpy.ops.mesh.primitive_ico_sphere_add. -/
def primitive_ico_sphere_add (radius : Rat) (location : V3 Rat) : M Unit :=
  op (addObject ⟨"Icosphere", location, ⟨0, 0, 0⟩, ⟨1, 1, 1⟩, .mesh (.icoSphere radius) [] [] false, true⟩)

/-- bpy.ops.mesh.primitive_cone_add. -/
def primitive_cone_add (radius1 depth : Rat) (location : V3 Rat) : M Unit :=
  op (addObject ⟨"Cone", location, ⟨0, 0, 0⟩, ⟨1, 1, 1⟩, .mesh (.cone radius1 depth) [] [] false, true⟩)

/-- The host default name of a freshly added light. -/
def lightName (t : String) : String :=
  if t == "SUN" then "Sun" else if t == "AREA" then "Area" else "Light"

/-- bpy.ops.object.light_add. -/
def light_add (ltype : String) (location : V3 Rat) : M Unit :=
  op (addObject ⟨lightName ltype, location, ⟨0, 0, 0⟩, ⟨1, 1, 1⟩, .light ltype 1 ⟨1, 1, 1⟩, true⟩)

/-- bpy.ops.object.camera_add. -/
def camera_add (location : V3 Rat) : M Unit :=
  op (addObject ⟨"Camera", location, ⟨0, 0, 0⟩, ⟨1, 1, 1⟩, .camera, true⟩)

/-- bpy.context.active_object, as an index into the object list. -/
def active_object : M Nat := readS (fun s => s.active.getD 0)

/-- Assign an attribute of one object. -/
def updateObj (i : Nat) (f : Object → Object) : M Unit :=
  op (fun s => { s with objects := listModify f i s.objects })

/-- obj.name assignment. -/
def obj_set_name (i : Nat) (n : String) : M Unit :=
  updateObj i (fun o => { o with name := n })

/-- obj.location assignment. -/
def obj_set_location (i : Nat) (v : V3 Rat) : M Unit :=
  updateObj i (fun o => { o with location := v })

/-- obj.rotation_euler assignment. -/
def obj_set_rotation (i : Nat) (v : V3 RVal) : M Unit :=
  updateObj i (fun o => { o with rotation_euler := v })

/-- obj.rotation_euler[0] assignment. -/
def obj_set_rotation_x (i : Nat) (v : RVal) : M Unit :=
  updateObj i (fun o => { o with rotation_euler := ⟨v, o.rotation_euler.y, o.rotation_euler.z⟩ })

/-- obj.scale assignment. -/
def obj_set_scale (i : Nat) (v : V3 Rat) : M Unit :=
  updateObj i (fun o => { o with scale := v })

/-- obj.data.materials.append on a mesh datablock. -/
def ObjData.appendMaterial (m : Material) : ObjData → ObjData
  | .mesh p mats mods sm => .mesh p (mats ++ [m]) mods sm
  | d => d

/-- obj.data.materials.append. -/
def obj_append_material (i : Nat) (m : Material) : M Unit :=
  updateObj i (fun o => { o with data := o.data.appendMaterial m })

/-- Smooth shading on a mesh datablock. -/
def ObjData.setSmooth : ObjData → ObjData
  | .mesh p mats mods _ => .mesh p mats mods true
  | d => d

/-- bpy.ops.object.shade_smooth: applies to the selected objects. -/
def shade_smooth : M Unit :=
  op (fun s =>
    { s with objects := s.objects.map (fun o => if o.selected then { o with data := o.data.setSmooth } else o) })

/-- Append a modifier to a mesh datablock. -/
def ObjData.addModifier (m : Modifier) : ObjData → ObjData
  | .mesh p mats mods sm => .mesh p mats (mods ++ [m]) sm
  | d => d

/-- bpy.ops.object.modifier_add(type=SUBSURF): adds a Subdivision Surface
modifier (host default levels 1) to the active object. -/
def modifier_add_subsurf : M Unit :=
  op (fun s =>
    { s with
      objects := listModify
                   (fun o => { o with data := o.data.addModifier ⟨"Subdivision Surface", "SUBSURF", 1⟩ })
                   (s.active.getD 0) s.objects })

/-- Assign levels of a named modifier of a mesh datablock. -/
def ObjData.setModifierLevels (mname : String) (lv : Nat) : ObjData → ObjData
  | .mesh p mats mods sm =>
      .mesh p mats (mods.map (fun m => if m.name == mname then { m with levels := lv } else m)) sm
  | d => d

/-- obj.modifiers[name].levels assignment. -/
def obj_set_modifier_levels (i : Nat) (mname : String) (lv : Nat) : M Unit :=
  updateObj i (fun o => { o with data := o.data.setModifierLevels mname lv })

/-- Assign energy of a light datablock. -/
def ObjData.setEnergy (e : Rat) : ObjData → ObjData
  | .light t _ c => .light t e c
  | d => d

/-- Assign color of a light datablock. -/
def ObjData.setLightColor (c : V3 Rat) : ObjData → ObjData
  | .light t e _ => .light t e c
  | d => d

/-- light.data.energy assignment. -/
def obj_set_light_energy (i : Nat) (e : Rat) : M Unit :=
  updateObj i (fun o => { o with data := o.data.setEnergy e })

/-- light.data.color assignment. -/
def obj_set_light_color (i : Nat) (c : V3 Rat) : M Unit :=
  updateObj i (fun o => { o with data := o.data.setLightColor c })

/-- bpy.ops.object.mode_set. -/
def mode_set (m : String) : M Unit := op (fun s => { s with mode := m })

/-- bpy.ops.mesh.select_all: manipulates edit-mesh component selection,
recorded here as the last requested action. -/
def ops_mesh_select_all (action : String) : M Unit :=
  op (fun s => { s with mesh_select_action := action })

/-- bpy.ops.mesh.select_mode: the edit-mesh component-selection mode. -/
def ops_mesh_select_mode (t : String) : M Unit :=
  op (fun s => { s with mesh_select_kind := t })

/-- bpy.context.view_layer.objects.active assignment. -/
def set_view_layer_active (i : Nat) : M Unit := op (fun s => { s with active := some i })

/-- bpy.context.scene.camera assignment. -/
def set_scene_camera (i : Nat) : M Unit := op (fun s => { s with scene_camera := some i })

/-- The membership test (name in bpy.data.objects). -/
def data_objects_contains (n : String) : M Bool :=
  readS (fun s => s.objects.any (fun o => o.name == n))

/-- bpy.data.objects.remove(bpy.data.objects[n]): removes the (unique)
object of that name. -/
def data_objects_remove (n : String) : M Unit :=
  op (fun s => { s with objects := s.objects.eraseP (fun o => o.name == n) })

/-- bpy.data.materials.new(name=n). -/
def data_materials_new (n : String) : M Unit :=
  op (fun s => { s with materials := s.materials ++ [⟨n, false, ⟨[], []⟩⟩] })

/-- Assign an attribute of the material created last (the one the script
holds a reference to). -/
def matLast (f : Material → Material) : M Unit :=
  op (fun s => { s with materials := updateLast f s.materials })

/-- mat.use_nodes assignment. -/
def mat_set_use_nodes (b : Bool) : M Unit := matLast (fun m => { m with use_nodes := b })

/-- mat.node_tree.nodes.clear(): removes all nodes (links die with them). -/
def mat_nodes_clear : M Unit := matLast (fun m => { m with node_tree := ⟨[], []⟩ })

/-- mat.node_tree.nodes.new. -/
def mat_nodes_new (t : String) : M Unit :=
  matLast (fun m => { m with node_tree := { m.node_tree with nodes := m.node_tree.nodes ++ [newNode t] } })

/-- The index of the node created last in the last material, modelling the
python reference returned by nodes.new. -/
def mat_last_node_index : M Nat :=
  readS (fun s => ((s.materials.getLast?).getD emptyMaterial).node_tree.nodes.length - 1)

/-- node.inputs[sock].default_value assignment on the last material. -/
def mat_set_node_input (node : Nat) (sock : String) (v : SockVal) : M Unit :=
  matLast (fun m => { m with node_tree := setNodeInput node sock v m.node_tree })

/-- mat.node_tree.links.new. -/
def mat_links_new (a : Nat) (sa : String) (b : Nat) (sb : String) : M Unit :=
  matLast (fun m => { m with node_tree := { m.node_tree with links := m.node_tree.links ++ [⟨a, sa, b, sb⟩] } })

/-- The value of the last created material (the reference the script
returns). -/
def data_materials_last : M Material :=
  readS (fun s => (s.materials.getLast?).getD emptyMaterial)

/-- Assign an attribute of the scene world. -/
def worldMod (f : WorldT → WorldT) : M Unit := op (fun s => { s with world := f s.world })

/-- world.use_nodes assignment. -/
def world_set_use_nodes (b : Bool) : M Unit := worldMod (fun w => { w with use_nodes := b })

/-- world.node_tree.nodes.clear(). -/
def world_nodes_clear : M Unit := worldMod (fun w => { w with node_tree := ⟨[], []⟩ })

/-- world.node_tree.nodes.new. -/
def world_nodes_new (t : String) : M Unit :=
  worldMod (fun w => { w with node_tree := { w.node_tree with nodes := w.node_tree.nodes ++ [newNode t] } })

/-- The index of the node created last in the world tree. -/
def world_last_node_index : M Nat :=
  readS (fun s => s.world.node_tree.nodes.length - 1)

/-- node.inputs[sock].default_value assignment on the world tree. -/
def world_set_node_input (node : Nat) (sock : String) (v : SockVal) : M Unit :=
  worldMod (fun w => { w with node_tree := setNodeInput node sock v w.node_tree })

/-- world.node_tree.links.new. -/
def world_links_new (a : Nat) (sa : String) (b : Nat) (sb : String) : M Unit :=
  worldMod (fun w => { w with node_tree := { w.node_tree with links := w.node_tree.links ++ [⟨a, sa, b, sb⟩] } })

/-- scene.render.resolution_x assignment. -/
def set_resolution_x (n : Nat) : M Unit :=
  op (fun s => { s with render := { s.render with resolution_x := n } })

/-- scene.render.resolution_y assignment. -/
def set_resolution_y (n : Nat) : M Unit :=
  op (fun s => { s with render := { s.render with resolution_y := n } })

/-- scene.render.film_transparent assignment. -/
def set_film_transparent (b : Bool) : M Unit :=
  op (fun s => { s with render := { s.render with film_transparent := b } })

/-- scene.render.filepath assignment. -/
def set_filepath (pth : String) : M Unit :=
  op (fun s => { s with render := { s.render with filepath := pth } })

/-- bpy.ops.render.render(write_still=True): writes one image at the
current settings. -/
def render_write_still : M Unit :=
  op (fun s =>
    { s with rendered :=
        s.rendered ++ [⟨s.render.filepath, s.render.resolution_x, s.render.resolution_y, s.render.film_transparent⟩] })

/-- clear_scene: clear all objects from the scene. -/
def clear_scene : M Unit := do
  ops_select_all_select
  ops_delete_selected

/-- create_material: create a material with the specified properties.  The
python defaults (metallic=0.1, roughness=0.3, emission=0.0) are recorded by
create_material_defaults; every call site below passes the effective
values explicitly. -/
def create_material (name : String) (color : Color) (metallic roughness emission : Rat) : M Material := do
  data_materials_new name
  mat_set_use_nodes true
  mat_nodes_clear
  mat_nodes_new "ShaderNodeBsdfPrincipled"
  let bsdf ← mat_last_node_index
  mat_set_node_input bsdf "Base Color" (.col color)
  mat_set_node_input bsdf "Metallic" (.num metallic)
  mat_set_node_input bsdf "Roughness" (.num roughness)
  mat_set_node_input bsdf "Emission Strength" (.num emission)
  mat_nodes_new "ShaderNodeOutputMaterial"
  let output ← mat_last_node_index
  mat_links_new bsdf "BSDF" output "Surface"
  data_materials_last

/-- create_material at its python default parameters metallic=0.1,
roughness=0.3, emission=0.0. -/
def create_material_defaults (name : String) (color : Color) : M Material :=
  create_material name color 0.1 0.3 0

/-- setup_lighting: set up warm lighting for the Storyline brand. -/
def setup_lighting : M Unit := do
  world_set_use_nodes true
  world_nodes_clear
  world_nodes_new "ShaderNodeTexEnvironment"
  let _env_node ← world_last_node_index
  world_nodes_new "ShaderNodeBackground"
  let background ← world_last_node_index
  world_nodes_new "ShaderNodeOutputWorld"
  let output ← world_last_node_index
  world_set_node_input background "Color" (.col ⟨0.1, 0.08, 0.12, 1.0⟩)
  world_set_node_input background "Strength" (.num 0.3)
  world_links_new background "Background" output "Surface"
  light_add "SUN" ⟨5, 5, 10⟩
  let key_light ← active_object
  obj_set_light_energy key_light 3
  obj_set_light_color key_light ⟨1.0, 0.95, 0.9⟩
  light_add "AREA" ⟨-3, 2, 5⟩
  let fill_light ← active_object
  obj_set_light_energy fill_light 1
  obj_set_light_color fill_light (colorOf "warm_ochre").rgb

/-- setup_icon_camera: set up the camera for icon rendering (defined before
the builders because Lean requires definition before use; the python source
defines it after them). -/
def setup_icon_camera : M Unit := do
  let hasCam ← data_objects_contains "Camera"
  if hasCam then
    data_objects_remove "Camera"
  camera_add ⟨4, -4, 3⟩
  let camera ← active_object
  obj_set_name camera "Icon_Camera"
  obj_set_rotation camera ⟨1.1, 0, 0.785⟩
  set_scene_camera camera

/-- render_icon: render the current scene as an icon.  The python default
size is 1024, recorded by render_icon_default; both call sites in the
orchestrator pass 1024 explicitly. -/
def render_icon (name : String) (size : Nat) : M Unit := do
  set_resolution_x size
  set_resolution_y size
  set_film_transparent true
  set_filepath ("/Users/jamesfarmer/Application Prototype/Storyline/assets/icons/" ++ name ++ "_" ++ toString size ++ ".png")
  render_write_still
  printMsg ("✅ Rendered " ++ name ++ " icon at " ++ toString size ++ "px")

/-- render_icon at its python default parameter size=1024. -/
def render_icon_default (name : String) : M Unit := render_icon name 1024

/-- create_microphone_icon: create a professional microphone icon. -/
def create_microphone_icon : M Unit := do
  clear_scene
  let body_mat ← create_material "Microphone_Body" (colorOf "soft_plum") 0.3 0.2 0
  let grille_mat ← create_material "Microphone_Grille" (colorOf "ink_black") 0.8 0.1 0
  let stand_mat ← create_material "Microphone_Stand" (colorOf "ink_black") 0.5 0.3 0
  primitive_cylinder_add 0.4 1.2 ⟨0, 0, 1⟩
  let capsule ← active_object
  obj_set_name capsule "Microphone_Capsule"
  shade_smooth
  obj_append_material capsule body_mat
  primitive_cylinder_add 0.41 0.8 ⟨0, 0, 1.2⟩
  let grille ← active_object
  obj_set_name grille "Microphone_Grille"
  obj_append_material grille grille_mat
  primitive_cylinder_add 0.6 0.1 ⟨0, 0, 0⟩
  let base ← active_object
  obj_set_name base "Microphone_Base"
  obj_append_material base stand_mat
  primitive_cylinder_add 0.05 1 ⟨0, 0, 0.5⟩
  let arm ← active_object
  obj_set_name arm "Microphone_Arm"
  obj_append_material arm stand_mat
  setup_icon_camera
  setup_lighting
  printMsg "✅ Microphone icon created!"

/-- The dot loop of the conversation-bubble builder: for i, x_pos in
enumerate([-0.4, 0, 0.4]). -/
def add_ai_dots (dot_mat : Material) : List (Nat × Rat) → M Unit
  | [] => pure ()
  | (i, x_pos) :: rest => do
      primitive_ico_sphere_add 0.12 ⟨x_pos, 0, 0.6⟩
      let dot ← active_object
      obj_set_name dot ("AI_Dot_" ++ toString (i + 1))
      obj_append_material dot dot_mat
      add_ai_dots dot_mat rest

/-- create_conversation_bubble: create a 3D conversation bubble icon. -/
def create_conversation_bubble : M Unit := do
  clear_scene
  let bubble_mat ← create_material "Bubble" (colorOf "soft_plum") 0.1 0.1 0.1
  let dot_mat ← create_material "Dots" (colorOf "soft_white") 0.1 0.3 0.3
  primitive_cube_add 2 ⟨0, 0, 0.5⟩
  let bubble ← active_object
  obj_set_name bubble "Conversation_Bubble"
  modifier_add_subsurf
  obj_set_modifier_levels bubble "Subdivision Surface" 2
  shade_smooth
  obj_append_material bubble bubble_mat
  primitive_ico_sphere_add 0.3 ⟨-0.8, -0.8, -0.2⟩
  let tail ← active_object
  obj_set_name tail "Bubble_Tail"
  obj_append_material tail bubble_mat
  add_ai_dots dot_mat ([(-0.4 : Rat), 0, 0.4].enum)
  setup_icon_camera
  setup_lighting
  printMsg "✅ Conversation bubble icon created!"

/-- create_book_icon: create a 3D book icon representing storytelling. -/
def create_book_icon : M Unit := do
  clear_scene
  let cover_mat ← create_material "Book_Cover" (colorOf "soft_plum") 0.1 0.4 0
  let pages_mat ← create_material "Book_Pages" (colorOf "soft_white") 0.1 0.8 0
  let bookmark_mat ← create_material "Bookmark" (colorOf "warm_ochre") 0.1 0.2 0
  primitive_cube_add 2 ⟨0, 0, 0⟩
  let book ← active_object
  obj_set_name book "Book_Cover"
  obj_set_scale book ⟨1.2, 0.1, 1.6⟩
  obj_append_material book cover_mat
  primitive_cube_add 2 ⟨0, 0.05, 0⟩
  let pages ← active_object
  obj_set_name pages "Book_Pages"
  obj_set_scale pages ⟨1.1, 0.08, 1.5⟩
  obj_append_material pages pages_mat
  primitive_cube_add 2 ⟨0.5, 0, 0.8⟩
  let bookmark ← active_object
  obj_set_name bookmark "Bookmark"
  obj_set_scale bookmark ⟨0.1, 0.12, 0.8⟩
  obj_append_material bookmark bookmark_mat
  setup_icon_camera
  setup_lighting
  printMsg "✅ Book icon created!"

/-- create_shield_icon: create a protective shield icon. -/
def create_shield_icon : M Unit := do
  clear_scene
  let shield_mat ← create_material "Shield" (colorOf "warm_ochre") 0.2 0.3 0.05
  let heart_mat ← create_material "Heart" (colorOf "soft_plum") 0.1 0.3 0.1
  primitive_cylinder_add 1 0.2 ⟨0, 0, 0⟩
  let shield ← active_object
  obj_set_name shield "Safety_Shield"
  set_view_layer_active shield
  mode_set "EDIT"
  ops_mesh_select_all "DESELECT"
  ops_mesh_select_mode "VERT"
  mode_set "OBJECT"
  obj_append_material shield shield_mat
  shade_smooth
  primitive_ico_sphere_add 0.3 ⟨0, 0.15, 0.2⟩
  let heart1 ← active_object
  obj_set_name heart1 "Heart_Left"
  obj_set_location heart1 ⟨-0.15, 0.15, 0.2⟩
  obj_append_material heart1 heart_mat
  primitive_ico_sphere_add 0.3 ⟨0.15, 0.15, 0.2⟩
  let heart2 ← active_object
  obj_set_name heart2 "Heart_Right"
  obj_append_material heart2 heart_mat
  primitive_cone_add 0.2 0.4 ⟨0, 0.1, -0.1⟩
  let heart_point ← active_object
  obj_set_name heart_point "Heart_Point"
  obj_set_rotation_x heart_point (math_radians 180)
  obj_append_material heart_point heart_mat
  setup_icon_camera
  setup_lighting
  printMsg "✅ Shield icon created!"

/-- create_all_storyline_icons: create all Storyline icons. -/
def create_all_storyline_icons : M Unit := do
  printMsg "🎨 Creating Storyline icons..."
  create_microphone_icon
  render_icon "microphone" 1024
  create_conversation_bubble
  render_icon "conversation_bubble" 1024
  create_book_icon
  render_icon "book" 1024
  create_shield_icon
  render_icon "shield" 1024
  printMsg "✅ All Storyline icons created!"

/-- The final state of a computation run with the failure oracle disabled
(no host call raises). -/
def runP {α : Type} (f : M α) (s : BState) : BState :=
  match f { s with fuel := none } with
  | Except.ok (_, t) => t
  | Except.error e => e

/-- The return value of a computation run with the failure oracle
disabled. -/
def runV {α : Type} (f : M α) (d : α) (s : BState) : α :=
  match f { s with fuel := none } with
  | Except.ok (a, _) => a
  | Except.error _ => d

/-- The material value produced by create_material for the given arguments. -/
def material_value (n : String) (c : Color) (mt rg em : Rat) : Material :=
  ⟨n, true,
   ⟨[⟨"ShaderNodeBsdfPrincipled",
      [("Base Color", .col c), ("Metallic", .num mt), ("Roughness", .num rg), ("Emission Strength", .num em)]⟩,
     ⟨"ShaderNodeOutputMaterial", []⟩],
    [⟨0, "BSDF", 1, "Surface"⟩]⟩⟩

/-- The world configuration produced by setup_lighting. -/
def world_value : WorldT :=
  ⟨true, ⟨[⟨"ShaderNodeTexEnvironment", []⟩,
           ⟨"ShaderNodeBackground", [("Color", .col ⟨0.1, 0.08, 0.12, 1.0⟩), ("Strength", .num 0.3)]⟩,
           ⟨"ShaderNodeOutputWorld", []⟩],
          [⟨1, "Background", 2, "Surface"⟩]⟩⟩

/-- The key light created by setup_lighting, as it stands at the end of the
rig setup (deselected by the subsequent fill-light add). -/
def sun_object : Object :=
  ⟨"Sun", ⟨5, 5, 10⟩, ⟨0, 0, 0⟩, ⟨1, 1, 1⟩, .light "SUN" 3 ⟨1.0, 0.95, 0.9⟩, false⟩

/-- The fill light created by setup_lighting. -/
def area_object : Object :=
  ⟨"Area", ⟨-3, 2, 5⟩, ⟨0, 0, 0⟩, ⟨1, 1, 1⟩, .light "AREA" 1 ⟨0.894, 0.702, 0.388⟩, true⟩

/-- The camera created by setup_icon_camera, as it stands right after that
function returns (still selected). -/
def icon_camera_object : Object :=
  ⟨"Icon_Camera", ⟨4, -4, 3⟩, ⟨1.1, 0, 0.785⟩, ⟨1, 1, 1⟩, .camera, true⟩

/-- The three materials of the microphone icon. -/
def mic_body_mat : Material := material_value "Microphone_Body" (colorOf "soft_plum") 0.3 0.2 0

/-- The grille material of the microphone icon. -/
def mic_grille_mat : Material := material_value "Microphone_Grille" (colorOf "ink_black") 0.8 0.1 0

/-- The stand material of the microphone icon. -/
def mic_stand_mat : Material := material_value "Microphone_Stand" (colorOf "ink_black") 0.5 0.3 0

/-- The scene objects present after create_microphone_icon has run. -/
def mic_objects : List Object :=
  [⟨"Microphone_Capsule", ⟨0, 0, 1⟩, ⟨0, 0, 0⟩, ⟨1, 1, 1⟩, .mesh (.cylinder 0.4 1.2) [mic_body_mat] [] true, false⟩,
   ⟨"Microphone_Grille", ⟨0, 0, 1.2⟩, ⟨0, 0, 0⟩, ⟨1, 1, 1⟩, .mesh (.cylinder 0.41 0.8) [mic_grille_mat] [] false, false⟩,
   ⟨"Microphone_Base", ⟨0, 0, 0⟩, ⟨0, 0, 0⟩, ⟨1, 1, 1⟩, .mesh (.cylinder 0.6 0.1) [mic_stand_mat] [] false, false⟩,
   ⟨"Microphone_Arm", ⟨0, 0, 0.5⟩, ⟨0, 0, 0⟩, ⟨1, 1, 1⟩, .mesh (.cylinder 0.05 1) [mic_stand_mat] [] false, false⟩,
   ⟨"Icon_Camera", ⟨4, -4, 3⟩, ⟨1.1, 0, 0.785⟩, ⟨1, 1, 1⟩, .camera, false⟩,
   sun_object, area_object]

/-- The bubble material of the conversation-bubble icon. -/
def bubble_mat_value : Material := material_value "Bubble" (colorOf "soft_plum") 0.1 0.1 0.1

/-- The dot material of the conversation-bubble icon. -/
def dots_mat_value : Material := material_value "Dots" (colorOf "soft_white") 0.1 0.3 0.3

/-- The scene objects present after create_conversation_bubble has run. -/
def bubble_objects : List Object :=
  [⟨"Conversation_Bubble", ⟨0, 0, 0.5⟩, ⟨0, 0, 0⟩, ⟨1, 1, 1⟩,
     .mesh (.cube 2) [bubble_mat_value] [⟨"Subdivision Surface", "SUBSURF", 2⟩] true, false⟩,
   ⟨"Bubble_Tail", ⟨-0.8, -0.8, -0.2⟩, ⟨0, 0, 0⟩, ⟨1, 1, 1⟩, .mesh (.icoSphere 0.3) [bubble_mat_value] [] false, false⟩,
   ⟨"AI_Dot_1", ⟨-0.4, 0, 0.6⟩, ⟨0, 0, 0⟩, ⟨1, 1, 1⟩, .mesh (.icoSphere 0.12) [dots_mat_value] [] false, false⟩,
   ⟨"AI_Dot_2", ⟨0, 0, 0.6⟩, ⟨0, 0, 0⟩, ⟨1, 1, 1⟩, .mesh (.icoSphere 0.12) [dots_mat_value] [] false, false⟩,
   ⟨"AI_Dot_3", ⟨0.4, 0, 0.6⟩, ⟨0, 0, 0⟩, ⟨1, 1, 1⟩, .mesh (.icoSphere 0.12) [dots_mat_value] [] false, false⟩,
   ⟨"Icon_Camera", ⟨4, -4, 3⟩, ⟨1.1, 0, 0.785⟩, ⟨1, 1, 1⟩, .camera, false⟩,
   sun_object, area_object]

/-- The cover material of the book icon. -/
def cover_mat_value : Material := material_value "Book_Cover" (colorOf "soft_plum") 0.1 0.4 0

/-- The pages material of the book icon. -/
def pages_mat_value : Material := material_value "Book_Pages" (colorOf "soft_white") 0.1 0.8 0

/-- The bookmark material of the book icon. -/
def bookmark_mat_value : Material := material_value "Bookmark" (colorOf "warm_ochre") 0.1 0.2 0

/-- The scene objects present after create_book_icon has run. -/
def book_objects : List Object :=
  [⟨"Book_Cover", ⟨0, 0, 0⟩, ⟨0, 0, 0⟩, ⟨1.2, 0.1, 1.6⟩, .mesh (.cube 2) [cover_mat_value] [] false, false⟩,
   ⟨"Book_Pages", ⟨0, 0.05, 0⟩, ⟨0, 0, 0⟩, ⟨1.1, 0.08, 1.5⟩, .mesh (.cube 2) [pages_mat_value] [] false, false⟩,
   ⟨"Bookmark", ⟨0.5, 0, 0.8⟩, ⟨0, 0, 0⟩, ⟨0.1, 0.12, 0.8⟩, .mesh (.cube 2) [bookmark_mat_value] [] false, false⟩,
   ⟨"Icon_Camera", ⟨4, -4, 3⟩, ⟨1.1, 0, 0.785⟩, ⟨1, 1, 1⟩, .camera, false⟩,
   sun_object, area_object]

/-- The shield material of the shield icon. -/
def shield_mat_value : Material := material_value "Shield" (colorOf "warm_ochre") 0.2 0.3 0.05

/-- The heart material of the shield icon. -/
def heart_mat_value : Material := material_value "Heart" (colorOf "soft_plum") 0.1 0.3 0.1

/-- The scene objects present after create_shield_icon has run. -/
def shield_objects : List Object :=
  [⟨"Safety_Shield", ⟨0, 0, 0⟩, ⟨0, 0, 0⟩, ⟨1, 1, 1⟩, .mesh (.cylinder 1 0.2) [shield_mat_value] [] true, false⟩,
   ⟨"Heart_Left", ⟨-0.15, 0.15, 0.2⟩, ⟨0, 0, 0⟩, ⟨1, 1, 1⟩, .mesh (.icoSphere 0.3) [heart_mat_value] [] false, false⟩,
   ⟨"Heart_Right", ⟨0.15, 0.15, 0.2⟩, ⟨0, 0, 0⟩, ⟨1, 1, 1⟩, .mesh (.icoSphere 0.3) [heart_mat_value] [] false, false⟩,
   ⟨"Heart_Point", ⟨0, 0.1, -0.1⟩, ⟨math_radians 180, 0, 0⟩, ⟨1, 1, 1⟩,
     .mesh (.cone 0.2 0.4) [heart_mat_value] [] false, false⟩,
   ⟨"Icon_Camera", ⟨4, -4, 3⟩, ⟨1.1, 0, 0.785⟩, ⟨1, 1, 1⟩, .camera, false⟩,
   sun_object, area_object]

/-- An empty scene whose failure oracle makes the very first host call
raise. -/
def fail_at_first_host_call : BState :=
  ⟨[], none, none, ⟨false, ⟨[], []⟩⟩, [], ⟨1920, 1080, false, "/tmp/"⟩, [], [], "OBJECT", "VERT", "", some 0⟩

/-- A default camera object named Camera, as a fresh host scene holds. -/
def default_camera_object : Object :=
  ⟨"Camera", ⟨0, 0, 0⟩, ⟨0, 0, 0⟩, ⟨1, 1, 1⟩, .camera, false⟩

/-- A scene holding just the default camera, with the failure oracle
disabled. -/
def scene_with_default_camera : BState :=
  ⟨[default_camera_object], none, none, ⟨false, ⟨[], []⟩⟩, [], ⟨1920, 1080, false, "/tmp/"⟩,
   [], [], "OBJECT", "VERT", "", none⟩

theorem bind_eq {α β : Type} (f : M α) (g : α → M β) : f >>= g = mBind f g := rfl

theorem pure_eq {α : Type} (a : α) : (pure a : M α) = mPure a := rfl

theorem cleared (l : List Object) :
    (l.map (fun o => { o with selected := true })).filter (fun o => !o.selected) = [] := by
  induction l with
  | nil => rfl
  | cons a rest ih => simp [List.filter, ih]

theorem updateLast_concat {α : Type} (f : α → α) (l : List α) (a : α) :
    updateLast f (l ++ [a]) = l ++ [f a] := by
  induction l with
  | nil => rfl
  | cons b rest ih =>
      cases rest with
      | nil => rfl
      | cons c r2 => simpa [updateLast] using ih

theorem listModify_head {α : Type} (f : α → α) (n : Nat) (l : List α) (a : α) (l' : List α)
    (hn : n = l.length) : listModify f n (l ++ (a :: l')) = l ++ (f a :: l') := by
  subst hn
  induction l with
  | nil => rfl
  | cons c rest ih => simpa [listModify] using ih

theorem listModify_tail1 {α : Type} (f : α → α) (n : Nat) (l : List α) (a b : α) (l' : List α)
    (hn : n = l.length + 1) : listModify f n (l ++ (a :: b :: l')) = l ++ (a :: f b :: l') := by
  subst hn
  induction l with
  | nil => rfl
  | cons c rest ih => simpa [listModify] using ih

theorem map_deselect_idem (l : List Object) :
    (l.map deselect).map deselect = l.map deselect := by
  induction l with
  | nil => rfl
  | cons a rest ih => simp [deselect, ih]

theorem map_deselect_comp (l : List Object) :
    l.map (deselect ∘ deselect) = l.map deselect := by
  induction l with
  | nil => rfl
  | cons a rest ih => simp [deselect, ih, Function.comp]

theorem clear_scene_run (s : BState) (h : s.fuel = none) :
    clear_scene s = Except.ok ((), { s with objects := [], active := none }) := by
  simp [clear_scene, bind_eq, mBind, ops_select_all_select, ops_delete_selected, op, h, cleared]

theorem create_material_run (n : String) (c : Color) (mt rg em : Rat) (s : BState) (h : s.fuel = none) :
    create_material n c mt rg em s =
      Except.ok (material_value n c mt rg em,
        { s with materials := s.materials ++ [material_value n c mt rg em] }) := by
  simp +decide [create_material, bind_eq, mBind, data_materials_new, mat_set_use_nodes, mat_nodes_clear,
        mat_nodes_new, mat_last_node_index, mat_set_node_input, mat_links_new, data_materials_last,
        matLast, readS, op, h, updateLast_concat, List.getLast?_concat, setNodeInput, newNode,
        defaultInputs, listModify, material_value, emptyMaterial]

theorem setup_lighting_run (s : BState) (h : s.fuel = none) :
    setup_lighting s = Except.ok ((),
      { s with world := world_value,
               objects := s.objects.map deselect ++ [sun_object, area_object],
               active := some (s.objects.length + 1) }) := by
  simp +decide [setup_lighting, bind_eq, mBind, world_set_use_nodes, world_nodes_clear, world_nodes_new,
        world_last_node_index, world_set_node_input, world_links_new, worldMod, light_add, lightName,
        active_object, obj_set_light_energy, obj_set_light_color, updateObj, addObject, readS, op, h,
        setNodeInput, newNode, defaultInputs, listModify, listModify_head, listModify_tail1,
        map_deselect_idem, map_deselect_comp, world_value, sun_object, area_object, colorOf, COLORS,
        Color.rgb, ObjData.setEnergy, ObjData.setLightColor, List.append_assoc, deselect]

theorem setup_icon_camera_run (s : BState) (h : s.fuel = none) :
    setup_icon_camera s = Except.ok ((),
      { s with objects := (s.objects.eraseP (fun o => o.name == "Camera")).map deselect ++ [icon_camera_object],
               active := some (s.objects.eraseP (fun o => o.name == "Camera")).length,
               scene_camera := some (s.objects.eraseP (fun o => o.name == "Camera")).length }) := by
  cases hc : s.objects.any (fun o => o.name == "Camera") with
  | true =>
      simp [setup_icon_camera, bind_eq, mBind, pure_eq, mPure, data_objects_contains,
            data_objects_remove, camera_add, addObject, active_object, obj_set_name, obj_set_rotation,
            set_scene_camera, updateObj, readS, op, h, hc, listModify_head, icon_camera_object, deselect]
  | false =>
      have he : s.objects.eraseP (fun o => o.name == "Camera") = s.objects := by
        apply List.eraseP_of_forall_not
        intro a ha
        simp only [List.any_eq_false] at hc
        simpa using hc a ha
      simp [setup_icon_camera, bind_eq, mBind, pure_eq, mPure, data_objects_contains,
            data_objects_remove, camera_add, addObject, active_object, obj_set_name, obj_set_rotation,
            set_scene_camera, updateObj, readS, op, h, hc, he, listModify_head, icon_camera_object, deselect]

theorem render_icon_run (n : String) (k : Nat) (s : BState) (h : s.fuel = none) :
    render_icon n k s = Except.ok ((),
      { s with
        render := ⟨k, k, true,
          "/Users/jamesfarmer/Application Prototype/Storyline/assets/icons/" ++ n ++ "_" ++ toString k ++ ".png"⟩,
        rendered := s.rendered ++
          [⟨"/Users/jamesfarmer/Application Prototype/Storyline/assets/icons/" ++ n ++ "_" ++ toString k ++ ".png",
            k, k, true⟩],
        printed := s.printed ++ ["✅ Rendered " ++ n ++ " icon at " ++ toString k ++ "px"] }) := by
  simp [render_icon, bind_eq, mBind, set_resolution_x, set_resolution_y, set_film_transparent,
        set_filepath, render_write_still, printMsg, op, h]

theorem create_microphone_icon_run (s : BState) (h : s.fuel = none) :
    create_microphone_icon s = Except.ok ((),
      { s with objects := mic_objects, active := some 6, scene_camera := some 4,
               world := world_value,
               materials := s.materials ++ [mic_body_mat, mic_grille_mat, mic_stand_mat],
               printed := s.printed ++ ["✅ Microphone icon created!"] }) := by
  simp +decide [create_microphone_icon, bind_eq, mBind, clear_scene_run, create_material_run,
        setup_icon_camera_run, setup_lighting_run, printMsg, primitive_cylinder_add,
        addObject, active_object, obj_set_name, obj_append_material, shade_smooth, updateObj, readS,
        op, h, listModify, List.eraseP, deselect, ObjData.appendMaterial, ObjData.setSmooth,
        mic_objects, mic_body_mat, mic_grille_mat, mic_stand_mat, icon_camera_object,
        List.append_assoc]

theorem create_conversation_bubble_run (s : BState) (h : s.fuel = none) :
    create_conversation_bubble s = Except.ok ((),
      { s with objects := bubble_objects, active := some 7, scene_camera := some 5,
               world := world_value,
               materials := s.materials ++ [bubble_mat_value, dots_mat_value],
               printed := s.printed ++ ["✅ Conversation bubble icon created!"] }) := by
  have e1 : ("AI_Dot_" ++ toString (1 : Nat)) = "AI_Dot_1" := by decide
  have e2 : ("AI_Dot_" ++ toString (2 : Nat)) = "AI_Dot_2" := by decide
  have e3 : ("AI_Dot_" ++ toString (3 : Nat)) = "AI_Dot_3" := by decide
  simp +decide [e1, e2, e3, create_conversation_bubble, bind_eq, mBind, pure_eq, mPure, clear_scene_run,
        create_material_run, setup_icon_camera_run, setup_lighting_run, printMsg,
        primitive_cube_add, primitive_ico_sphere_add, modifier_add_subsurf, obj_set_modifier_levels,
        add_ai_dots, List.enum, List.enumFrom,
        addObject, active_object, obj_set_name, obj_append_material, shade_smooth, updateObj, readS,
        op, h, listModify, List.eraseP, deselect, ObjData.appendMaterial, ObjData.setSmooth,
        ObjData.addModifier, ObjData.setModifierLevels,
        bubble_objects, bubble_mat_value, dots_mat_value, icon_camera_object, List.append_assoc]

theorem create_book_icon_run (s : BState) (h : s.fuel = none) :
    create_book_icon s = Except.ok ((),
      { s with objects := book_objects, active := some 5, scene_camera := some 3,
               world := world_value,
               materials := s.materials ++ [cover_mat_value, pages_mat_value, bookmark_mat_value],
               printed := s.printed ++ ["✅ Book icon created!"] }) := by
  simp +decide [create_book_icon, bind_eq, mBind, clear_scene_run, create_material_run,
        setup_icon_camera_run, setup_lighting_run, printMsg, primitive_cube_add,
        addObject, active_object, obj_set_name, obj_set_scale, obj_append_material, updateObj, readS,
        op, h, listModify, List.eraseP, deselect, ObjData.appendMaterial,
        book_objects, cover_mat_value, pages_mat_value, bookmark_mat_value, icon_camera_object,
        List.append_assoc]

theorem create_shield_icon_run (s : BState) (h : s.fuel = none) :
    create_shield_icon s = Except.ok ((),
      { s with objects := shield_objects, active := some 6, scene_camera := some 4,
               world := world_value,
               materials := s.materials ++ [shield_mat_value, heart_mat_value],
               printed := s.printed ++ ["✅ Shield icon created!"],
               mode := "OBJECT", mesh_select_kind := "VERT", mesh_select_action := "DESELECT" }) := by
  simp +decide [create_shield_icon, bind_eq, mBind, clear_scene_run, create_material_run,
        setup_icon_camera_run, setup_lighting_run, printMsg, primitive_cylinder_add,
        primitive_ico_sphere_add, primitive_cone_add, set_view_layer_active, mode_set,
        ops_mesh_select_all, ops_mesh_select_mode, obj_set_location, obj_set_rotation_x,
        addObject, active_object, obj_set_name, obj_append_material, shade_smooth, updateObj, readS,
        op, h, listModify, List.eraseP, deselect, ObjData.appendMaterial, ObjData.setSmooth,
        math_radians, shield_objects, shield_mat_value, heart_mat_value, icon_camera_object,
        List.append_assoc]

theorem create_all_run (s : BState) (h : s.fuel = none) :
    create_all_storyline_icons s = Except.ok ((),
      { s with
        objects := shield_objects, active := some 6, scene_camera := some 4, world := world_value,
        materials := s.materials ++
          [mic_body_mat, mic_grille_mat, mic_stand_mat, bubble_mat_value, dots_mat_value,
           cover_mat_value, pages_mat_value, bookmark_mat_value, shield_mat_value, heart_mat_value],
        render := ⟨1024, 1024, true,
          "/Users/jamesfarmer/Application Prototype/Storyline/assets/icons/shield_1024.png"⟩,
        rendered := s.rendered ++
          [⟨"/Users/jamesfarmer/Application Prototype/Storyline/assets/icons/microphone_1024.png", 1024, 1024, true⟩,
           ⟨"/Users/jamesfarmer/Application Prototype/Storyline/assets/icons/conversation_bubble_1024.png", 1024, 1024, true⟩,
           ⟨"/Users/jamesfarmer/Application Prototype/Storyline/assets/icons/book_1024.png", 1024, 1024, true⟩,
           ⟨"/Users/jamesfarmer/Application Prototype/Storyline/assets/icons/shield_1024.png", 1024, 1024, true⟩],
        printed := s.printed ++
          ["🎨 Creating Storyline icons...",
           "✅ Microphone icon created!",
           "✅ Rendered microphone icon at 1024px",
           "✅ Conversation bubble icon created!",
           "✅ Rendered conversation_bubble icon at 1024px",
           "✅ Book icon created!",
           "✅ Rendered book icon at 1024px",
           "✅ Shield icon created!",
           "✅ Rendered shield icon at 1024px",
           "✅ All Storyline icons created!"],
        mode := "OBJECT", mesh_select_kind := "VERT", mesh_select_action := "DESELECT" }) := by
  simp [create_all_storyline_icons, bind_eq, mBind, printMsg,
        create_microphone_icon_run, create_conversation_bubble_run, create_book_icon_run,
        create_shield_icon_run, render_icon_run, h, List.append_assoc]
  decide

/-- C1: the orchestrator create_all_storyline_icons runs all four icon
builders and renders in sequence, in exactly the order microphone, render
microphone at 1024, conversation bubble, render conversation_bubble at
1024, book, render book at 1024, shield, render shield at 1024.  The
console log records each builder completion followed by its render, in
that order, and the renderer writes the four icon files in that order. -/
theorem claim_C1_orchestrator_sequence (s : BState) :
    (runP create_all_storyline_icons s).printed = s.printed ++
      ["🎨 Creating Storyline icons...",
       "✅ Microphone icon created!",
       "✅ Rendered microphone icon at 1024px",
       "✅ Conversation bubble icon created!",
       "✅ Rendered conversation_bubble icon at 1024px",
       "✅ Book icon created!",
       "✅ Rendered book icon at 1024px",
       "✅ Shield icon created!",
       "✅ Rendered shield icon at 1024px",
       "✅ All Storyline icons created!"] ∧
    (runP create_all_storyline_icons s).rendered = s.rendered ++
      [⟨"/Users/jamesfarmer/Application Prototype/Storyline/assets/icons/microphone_1024.png", 1024, 1024, true⟩,
       ⟨"/Users/jamesfarmer/Application Prototype/Storyline/assets/icons/conversation_bubble_1024.png", 1024, 1024, true⟩,
       ⟨"/Users/jamesfarmer/Application Prototype/Storyline/assets/icons/book_1024.png", 1024, 1024, true⟩,
       ⟨"/Users/jamesfarmer/Application Prototype/Storyline/assets/icons/shield_1024.png", 1024, 1024, true⟩] := by
  simp [runP, create_all_run]

/-- C2: for every name and size, render_icon sets the render resolution to
size by size with transparent film enabled, and writes a PNG to the fixed
path made of the hardcoded prefix, the name, an underscore, the size and
the .png extension; the python default size parameter is 1024. -/
theorem claim_C2_render_icon_output (name : String) (size : Nat) (s : BState) :
    ((runP (render_icon name size) s).render.resolution_x = size ∧
     (runP (render_icon name size) s).render.resolution_y = size ∧
     (runP (render_icon name size) s).render.film_transparent = true ∧
     (runP (render_icon name size) s).render.filepath =
       "/Users/jamesfarmer/Application Prototype/Storyline/assets/icons/" ++ name ++ "_" ++ toString size ++ ".png" ∧
     (runP (render_icon name size) s).rendered = s.rendered ++
       [⟨"/Users/jamesfarmer/Application Prototype/Storyline/assets/icons/" ++ name ++ "_" ++ toString size ++ ".png",
         size, size, true⟩]) ∧
    render_icon_default name = render_icon name 1024 := by
  simp [runP, render_icon_run, render_icon_default]

/-- C3: clear_scene empties the scene, every per-icon builder starts with
it, and consequently the scene contents (objects, world, active camera)
after any of the four builders runs do not depend on the scene contents
before the builder ran. -/
theorem claim_C3_builders_reset_scene (s₁ s₂ : BState) :
    (runP clear_scene s₁).objects = [] ∧
    ((runP create_microphone_icon s₁).objects = (runP create_microphone_icon s₂).objects ∧
     (runP create_microphone_icon s₁).world = (runP create_microphone_icon s₂).world ∧
     (runP create_microphone_icon s₁).scene_camera = (runP create_microphone_icon s₂).scene_camera) ∧
    ((runP create_conversation_bubble s₁).objects = (runP create_conversation_bubble s₂).objects ∧
     (runP create_conversation_bubble s₁).world = (runP create_conversation_bubble s₂).world ∧
     (runP create_conversation_bubble s₁).scene_camera = (runP create_conversation_bubble s₂).scene_camera) ∧
    ((runP create_book_icon s₁).objects = (runP create_book_icon s₂).objects ∧
     (runP create_book_icon s₁).world = (runP create_book_icon s₂).world ∧
     (runP create_book_icon s₁).scene_camera = (runP create_book_icon s₂).scene_camera) ∧
    ((runP create_shield_icon s₁).objects = (runP create_shield_icon s₂).objects ∧
     (runP create_shield_icon s₁).world = (runP create_shield_icon s₂).world ∧
     (runP create_shield_icon s₁).scene_camera = (runP create_shield_icon s₂).scene_camera) := by
  simp [runP, clear_scene_run, create_microphone_icon_run, create_conversation_bubble_run,
        create_book_icon_run, create_shield_icon_run]

/-- C4: create_material returns a node-based material of the given name
whose Principled BSDF holds the given Base Color, Metallic, Roughness and
Emission Strength, with the BSDF output linked to the Surface input of the
material output node; the python defaults are metallic=0.1, roughness=0.3,
emission=0.0. -/
theorem claim_C4_create_material_nodes (name : String) (color : Color)
    (metallic roughness emission : Rat) (s : BState) :
    runV (create_material name color metallic roughness emission) emptyMaterial s =
      ⟨name, true,
       ⟨[⟨"ShaderNodeBsdfPrincipled",
          [("Base Color", .col color), ("Metallic", .num metallic),
           ("Roughness", .num roughness), ("Emission Strength", .num emission)]⟩,
         ⟨"ShaderNodeOutputMaterial", []⟩],
        [⟨0, "BSDF", 1, "Surface"⟩]⟩⟩ ∧
    create_material_defaults name color = create_material name color 0.1 0.3 0 := by
  simp [runV, create_material_run, material_value, create_material_defaults]

/-- C5: setup_lighting configures the world background to color
(0.1, 0.08, 0.12, 1.0) at strength 0.3, linked to the world output, and
adds exactly two lights: a key SUN light at (5, 5, 10) with energy 3 and a
fill AREA light at (-3, 2, 5) with energy 1 and the warm-ochre color. -/
theorem claim_C5_setup_lighting_rig (s : BState) :
    (runP setup_lighting s).world =
      ⟨true, ⟨[⟨"ShaderNodeTexEnvironment", []⟩,
               ⟨"ShaderNodeBackground", [("Color", .col ⟨0.1, 0.08, 0.12, 1.0⟩), ("Strength", .num 0.3)]⟩,
               ⟨"ShaderNodeOutputWorld", []⟩],
              [⟨1, "Background", 2, "Surface"⟩]⟩⟩ ∧
    (runP setup_lighting s).objects = s.objects.map deselect ++
      [⟨"Sun", ⟨5, 5, 10⟩, ⟨0, 0, 0⟩, ⟨1, 1, 1⟩, .light "SUN" 3 ⟨1.0, 0.95, 0.9⟩, false⟩,
       ⟨"Area", ⟨-3, 2, 5⟩, ⟨0, 0, 0⟩, ⟨1, 1, 1⟩, .light "AREA" 1 ⟨0.894, 0.702, 0.388⟩, true⟩] := by
  simp [runP, setup_lighting_run, world_value, sun_object, area_object]

/-- C6: setup_icon_camera places a camera at location (4, -4, 3) with
rotation (1.1, 0, 0.785), names it Icon_Camera, and sets it as the active
camera of the scene. -/
theorem claim_C6_setup_icon_camera_placement (s : BState) :
    (runP setup_icon_camera s).objects.getLast? =
      some ⟨"Icon_Camera", ⟨4, -4, 3⟩, ⟨1.1, 0, 0.785⟩, ⟨1, 1, 1⟩, .camera, true⟩ ∧
    (runP setup_icon_camera s).scene_camera = some ((runP setup_icon_camera s).objects.length - 1) := by
  simp [runP, setup_icon_camera_run, icon_camera_object, List.getLast?_concat]

/-- C7: no function of the script catches exceptions.  If any host call in
the build-and-render pipeline raises, the carried state at the failure
point (all scene mutations made before the failure, no rollback), then
create_all_storyline_icons itself stops with exactly that error and state:
the failure propagates unhandled to the top level, nothing after the
failing call runs. -/
theorem claim_C7_unhandled_failure_propagates (s e : BState)
    (h : (do
            create_microphone_icon
            render_icon "microphone" 1024
            create_conversation_bubble
            render_icon "conversation_bubble" 1024
            create_book_icon
            render_icon "book" 1024
            create_shield_icon
            render_icon "shield" 1024 : M Unit)
           { s with printed := s.printed ++ ["🎨 Creating Storyline icons..."] } = Except.error e) :
    create_all_storyline_icons s = Except.error e := by
  simp only [create_all_storyline_icons, bind_eq, mBind, printMsg] at h ⊢
  rcases h1 : create_microphone_icon { s with printed := s.printed ++ ["🎨 Creating Storyline icons..."] }
    with e1 | ⟨_u1, t1⟩
  · simp [h1] at h ⊢; exact h
  · simp [h1] at h ⊢
    rcases h2 : render_icon "microphone" 1024 t1 with e2 | ⟨_u2, t2⟩
    · simp [h2] at h ⊢; exact h
    · simp [h2] at h ⊢
      rcases h3 : create_conversation_bubble t2 with e3 | ⟨_u3, t3⟩
      · simp [h3] at h ⊢; exact h
      · simp [h3] at h ⊢
        rcases h4 : render_icon "conversation_bubble" 1024 t3 with e4 | ⟨_u4, t4⟩
        · simp [h4] at h ⊢; exact h
        · simp [h4] at h ⊢
          rcases h5 : create_book_icon t4 with e5 | ⟨_u5, t5⟩
          · simp [h5] at h ⊢; exact h
          · simp [h5] at h ⊢
            rcases h6 : render_icon "book" 1024 t5 with e6 | ⟨_u6, t6⟩
            · simp [h6] at h ⊢; exact h
            · simp [h6] at h ⊢
              rcases h7 : create_shield_icon t6 with e7 | ⟨_u7, t7⟩
              · simp [h7] at h ⊢; exact h
              · simp [h7] at h ⊢
                rcases h8 : render_icon "shield" 1024 t7 with e8 | ⟨_u8, t8⟩
                · simp [h8] at h ⊢; exact h
                · simp [h8] at h

/-- C7 witness: on an empty scene whose very first host call raises, the
pipeline fails with only the opening console message done, and
create_all_storyline_icons propagates exactly that failure. -/
theorem claim_C7_witness :
    create_all_storyline_icons fail_at_first_host_call =
      Except.error { fail_at_first_host_call with printed := ["🎨 Creating Storyline icons..."] } :=
  claim_C7_unhandled_failure_propagates fail_at_first_host_call
    { fail_at_first_host_call with printed := ["🎨 Creating Storyline icons..."] } rfl

/-- C8: after create_microphone_icon runs, from any starting scene and
with every host call succeeding, the scene holds exactly the four named
microphone meshes with the stated primitives, locations and materials,
plus the Icon_Camera and the two lights added by setup_lighting, and no
other objects. -/
theorem claim_C8_microphone_scene_graph (s : BState) :
    (runP create_microphone_icon s).objects =
      [⟨"Microphone_Capsule", ⟨0, 0, 1⟩, ⟨0, 0, 0⟩, ⟨1, 1, 1⟩,
         .mesh (.cylinder 0.4 1.2) [material_value "Microphone_Body" (colorOf "soft_plum") 0.3 0.2 0] [] true, false⟩,
       ⟨"Microphone_Grille", ⟨0, 0, 1.2⟩, ⟨0, 0, 0⟩, ⟨1, 1, 1⟩,
         .mesh (.cylinder 0.41 0.8) [material_value "Microphone_Grille" (colorOf "ink_black") 0.8 0.1 0] [] false, false⟩,
       ⟨"Microphone_Base", ⟨0, 0, 0⟩, ⟨0, 0, 0⟩, ⟨1, 1, 1⟩,
         .mesh (.cylinder 0.6 0.1) [material_value "Microphone_Stand" (colorOf "ink_black") 0.5 0.3 0] [] false, false⟩,
       ⟨"Microphone_Arm", ⟨0, 0, 0.5⟩, ⟨0, 0, 0⟩, ⟨1, 1, 1⟩,
         .mesh (.cylinder 0.05 1) [material_value "Microphone_Stand" (colorOf "ink_black") 0.5 0.3 0] [] false, false⟩,
       ⟨"Icon_Camera", ⟨4, -4, 3⟩, ⟨1.1, 0, 0.785⟩, ⟨1, 1, 1⟩, .camera, false⟩,
       ⟨"Sun", ⟨5, 5, 10⟩, ⟨0, 0, 0⟩, ⟨1, 1, 1⟩, .light "SUN" 3 ⟨1.0, 0.95, 0.9⟩, false⟩,
       ⟨"Area", ⟨-3, 2, 5⟩, ⟨0, 0, 0⟩, ⟨1, 1, 1⟩, .light "AREA" 1 ⟨0.894, 0.702, 0.388⟩, true⟩] := by
  simp [runP, create_microphone_icon_run, mic_objects, mic_body_mat, mic_grille_mat, mic_stand_mat,
        sun_object, area_object]

/-- C9 counterexample: the claim that, apart from clear_scene, no
operation in the script removes an object from the scene is false:
setup_icon_camera removes a pre-existing object named Camera from the
scene without clear_scene ever running. -/
theorem claim_C9_counterexample :
    default_camera_object ∈ scene_with_default_camera.objects ∧
    default_camera_object ∉ (runP setup_icon_camera scene_with_default_camera).objects ∧
    (runP setup_icon_camera scene_with_default_camera).objects.all (fun o => o.name != "Camera") = true := by
  decide

/-- C9 amended: scene objects are destroyed only by clear_scene and by one
other operation, the removal in setup_icon_camera of a pre-existing object
named Camera (the host default camera) before adding its own camera;
setup_lighting, render_icon and create_material never remove an object,
they only append objects or leave the object list unchanged apart from
property mutation. -/
theorem claim_C9_object_removal_amended (s : BState) (n : String) (k : Nat)
    (name : String) (c : Color) (mt rg em : Rat) :
    (runP clear_scene s).objects = [] ∧
    (runP setup_icon_camera s).objects =
      (s.objects.eraseP (fun o => o.name == "Camera")).map deselect ++
        [⟨"Icon_Camera", ⟨4, -4, 3⟩, ⟨1.1, 0, 0.785⟩, ⟨1, 1, 1⟩, .camera, true⟩] ∧
    (runP setup_lighting s).objects = s.objects.map deselect ++
      [⟨"Sun", ⟨5, 5, 10⟩, ⟨0, 0, 0⟩, ⟨1, 1, 1⟩, .light "SUN" 3 ⟨1.0, 0.95, 0.9⟩, false⟩,
       ⟨"Area", ⟨-3, 2, 5⟩, ⟨0, 0, 0⟩, ⟨1, 1, 1⟩, .light "AREA" 1 ⟨0.894, 0.702, 0.388⟩, true⟩] ∧
    (runP (render_icon n k) s).objects = s.objects ∧
    (runP (create_material name c mt rg em) s).objects = s.objects := by
  simp [runP, clear_scene_run, setup_icon_camera_run, setup_lighting_run, render_icon_run,
        create_material_run, icon_camera_object, sun_object, area_object]

/-- C10: render_icon modifies only the render settings (resolution_x,
resolution_y, film_transparent, filepath) and triggers the render (also
printing a console message); the scene objects, the active object, the
active camera, the world, the materials and the mode state are all
unchanged by the call. -/
theorem claim_C10_render_icon_frame (name : String) (size : Nat) (s : BState) :
    (runP (render_icon name size) s).objects = s.objects ∧
    (runP (render_icon name size) s).active = s.active ∧
    (runP (render_icon name size) s).scene_camera = s.scene_camera ∧
    (runP (render_icon name size) s).world = s.world ∧
    (runP (render_icon name size) s).materials = s.materials ∧
    (runP (render_icon name size) s).mode = s.mode ∧
    (runP (render_icon name size) s).mesh_select_kind = s.mesh_select_kind ∧
    (runP (render_icon name size) s).mesh_select_action = s.mesh_select_action ∧
    (runP (render_icon name size) s).render =
      ⟨size, size, true,
       "/Users/jamesfarmer/Application Prototype/Storyline/assets/icons/" ++ name ++ "_" ++ toString size ++ ".png"⟩ ∧
    (runP (render_icon name size) s).rendered = s.rendered ++
      [⟨"/Users/jamesfarmer/Application Prototype/Storyline/assets/icons/" ++ name ++ "_" ++ toString size ++ ".png",
        size, size, true⟩] ∧
    (runP (render_icon name size) s).printed =
      s.printed ++ ["✅ Rendered " ++ name ++ " icon at " ++ toString size ++ "px"] := by
  simp [runP, render_icon_run]

end Storyline
